import Mathlib

/-!
Shallow embedding of the image-pro optimization engine
(src/backend/app.py, with the near-identical copy src/image_pro/backend/app.py
modelled where a claim compares the two).

Pure orchestration logic is translated directly: branch conditions,
quality/parameter mappings, the size-comparison arbitration, batch
validation, and result assembly.  The external codecs (Pillow, pngquant,
cjpeg, cwebp, oxipng) are opaque: their availability and success/failure
outcomes are inputs (an Env record), and their observable encode
parameters (quality, flags, color mode conversions) are recorded in
result records mirroring the arguments the source passes them.
-/

namespace ImagePro

/-- Pillow color modes relevant to the pipeline. -/
inductive ColorMode
  | RGB
  | RGBA
  | L
  | LA
  | P
deriving DecidableEq, Repr

/-- Channel count of a color mode (as reported by decoding the output). -/
def ColorMode.channels : ColorMode → Nat
  | .RGB => 3
  | .RGBA => 4
  | .L => 1
  | .LA => 2
  | .P => 1

/-- Format family, from the source line
fmt = "JPEG" if ext in (".jpg", ".jpeg") else "PNG" if ext == ".png" else None. -/
inductive Family
  | JPEG
  | PNG
  | OTHER
deriving DecidableEq, Repr

def family_of (ext : String) : Family :=
  if ext = ".jpg" ∨ ext = ".jpeg" then Family.JPEG
  else if ext = ".png" then Family.PNG
  else Family.OTHER

/-- The extension allow-list from the upload handler. -/
def allowed_exts : List String :=
  [".jpg", ".jpeg", ".png", ".gif", ".tiff", ".tif", ".webp"]

def valid_ext (ext : String) : Bool := allowed_exts.contains ext

/-- An uploaded file, already split into stem and lower-cased extension
(mirroring secure_filename + os.path.splitext + lower). -/
structure BatchFile where
  stem : String
  ext : String
deriving DecidableEq, Repr

/-- The decoded source image as the pipeline sees it. -/
structure SourceImage where
  width : Nat
  height : Nat
  mode : ColorMode
  has_exif : Bool
deriving DecidableEq, Repr

/-- Request options after parsing (width/height via safe_int with no
default, quality via safe_int with default 82, flags lower-cased). -/
structure JobOptions where
  width : Option Nat
  height : Option Nat
  optimize : Bool
  quality : Nat
  convert_to : String
  keep_meta : Bool
  autowebp : Bool
deriving DecidableEq, Repr

/-- External-tool environment: capability table plus the outcome and
byte sizes of the opaque encoder invocations for this job. -/
structure Env where
  have_pngquant : Bool
  pngquant_ok : Bool
  have_cjpeg : Bool
  cjpeg_ok : Bool
  jpeg_out_size : Nat
  webp_out_size : Nat
deriving DecidableEq, Repr

/-- Python truthiness of an optional integer: None and 0 are falsy. -/
def truthy : Option Nat → Bool
  | none => false
  | some n => decide (n ≠ 0)

/-- Python x or d for an optional integer x (used for width or orig_w). -/
def py_or (v : Option Nat) (d : Nat) : Nat :=
  match v with
  | none => d
  | some n => if n = 0 then d else n

/-- Python q or d for an integer q (used for quality or 82, quality or 80). -/
def py_or_nat (n d : Nat) : Nat := if n = 0 then d else n

/-- safe_int(form.get(quality), 82): a missing or unparseable field
yields the default 82, a parsed integer is returned as-is. -/
def parse_quality (v : Option Nat) : Nat := v.getD 82

/-- The arbitration comparison from try_webp_and_pick_smaller:
os.path.getsize(alt) < os.path.getsize(current_out) * 0.90. -/
def webp_wins (size_current size_alt : Nat) : Bool :=
  decide ((size_alt : ℚ) < (size_current : ℚ) * (90 / 100))

/-- Outcome of Candidate Arbitration: the chosen path and the deleted
losing artifact(s). -/
structure Arb where
  chosen : String
  deleted : List String
deriving DecidableEq, Repr

/-- try_webp_and_pick_smaller: the current output is stem ++ ext, the
challenger is written at splitext(current_out)[0] + ".webp"; the
challenger is kept only when its size beats the 0.90 threshold, and the
loser is removed from disk. -/
def try_webp_and_pick_smaller (stem ext : String) (size_current size_alt : Nat) : Arb :=
  let current_out := stem ++ ext
  let alt := stem ++ ".webp"
  if webp_wins size_current size_alt then
    { chosen := alt, deleted := [current_out] }
  else
    { chosen := current_out, deleted := [alt] }

/-- The artifacts (out of the two candidates) still on disk after
arbitration deleted the loser. -/
def survivors (stem ext : String) (r : Arb) : List String :=
  [stem ++ ext, stem ++ ".webp"].filter (fun a => !(r.deleted.contains a))

/-- Which branch of the PNG optimize strategy runs. -/
inductive PngBranch
  | webp
  | pngquant_oxipng
  | lossless_fallback
  | pillow_quantize
deriving DecidableEq, Repr

/-- The PNG optimize branch selection: convert_to=webp short-circuits;
otherwise pngquant runs when available (on failure the code calls
compress_png_lossless), and only when pngquant is absent does the
in-process Pillow quantization run. -/
def png_strategy (convert_to : String) (have_pngquant pngquant_ok : Bool) : PngBranch :=
  if convert_to = "webp" then PngBranch.webp
  else if have_pngquant then
    if pngquant_ok then PngBranch.pngquant_oxipng else PngBranch.lossless_fallback
  else PngBranch.pillow_quantize

/-- Observable parameters of the in-process PNG quantization fallback. -/
structure QuantizedPng where
  mode_rgba : Bool
  colors : Nat
  method : String
  dither : String
  save_optimize : Bool
  save_compress_level : Option Nat
deriving DecidableEq, Repr

/-- The in-process quantization fallback in src/backend/app.py:
convert RGBA, colors = max(32, min(256, int((quality or 82) * 2.0))),
MEDIANCUT + FLOYDSTEINBERG, save with optimize=True, compress_level=9. -/
def pillow_quantize_fallback (quality : Nat) : QuantizedPng :=
  { mode_rgba := true
  , colors := max 32 (min 256 (2 * py_or_nat quality 82))
  , method := "MEDIANCUT"
  , dither := "FLOYDSTEINBERG"
  , save_optimize := true
  , save_compress_level := some 9 }

/-- The in-process quantization fallback in the second copy,
src/image_pro/backend/app.py: colors = max(16, min(256,
int((quality or 82) * 2.56))), MEDIANCUT + FLOYDSTEINBERG, save with
optimize=True and no compress_level argument. -/
def pillow_quantize_fallback_copy (quality : Nat) : QuantizedPng :=
  { mode_rgba := true
  , colors := max 16 (min 256 (py_or_nat quality 82 * 256 / 100))
  , method := "MEDIANCUT"
  , dither := "FLOYDSTEINBERG"
  , save_optimize := true
  , save_compress_level := none }

/-- Observable parameters of a completed JPEG encode attempt. -/
structure JpegEncodeSpec where
  encoder : String
  staged_quality : Option Nat
  progressive : Bool
  optimize : Bool
  subsampling : Option String
  quality : Nat
  exif_kept : Bool
  out_mode : ColorMode
deriving DecidableEq, Repr

/-- encode_jpeg_pillow: exif_transpose then convert RGB; save JPEG with
quality, optimize=True, progressive=True, subsampling 4:2:0; the exif
kwarg is attached only when keep_exif is set and the image has EXIF. -/
def encode_jpeg_pillow (quality : Nat) (keep_exif has_exif : Bool) : JpegEncodeSpec :=
  { encoder := "pillow"
  , staged_quality := none
  , progressive := true
  , optimize := true
  , subsampling := some "4:2:0"
  , quality := quality
  , exif_kept := keep_exif && has_exif
  , out_mode := ColorMode.RGB }

/-- encode_jpeg_mozjpeg: exif_transpose then convert RGB, stage through a
temporary JPEG at quality 95, then cjpeg -quality q -progressive
-optimize; EXIF is not forwarded (the staged save drops it). -/
def encode_jpeg_mozjpeg (quality : Nat) : JpegEncodeSpec :=
  { encoder := "cjpeg"
  , staged_quality := some 95
  , progressive := true
  , optimize := true
  , subsampling := none
  , quality := quality
  , exif_kept := false
  , out_mode := ColorMode.RGB }

/-- The JPEG optimize strategy (non-WebP path): try mozjpeg when cjpeg is
available, fall back to the in-process Pillow encode when cjpeg is absent
or its invocation fails.  Each call site passes quality or 82. -/
def jpeg_strategy (have_cjpeg cjpeg_ok : Bool) (quality : Nat)
    (keep_meta has_exif : Bool) : JpegEncodeSpec :=
  if have_cjpeg then
    if cjpeg_ok then encode_jpeg_mozjpeg (py_or_nat quality 82)
    else encode_jpeg_pillow (py_or_nat quality 82) keep_meta has_exif
  else encode_jpeg_pillow (py_or_nat quality 82) keep_meta has_exif

/-- The final on-disk artifact of one job: its filename, format tag, the
color mode it was encoded from, and the quality argument passed to the
encoder (none when the branch passes no quality parameter). -/
structure FinalArtifact where
  name : String
  fmt : String
  mode : ColorMode
  quality_used : Option Nat
deriving DecidableEq, Repr

/-- The inline preview payload: image_to_base64(preview.convert("RGB"),
"JPEG") always tags the data URI with JPEG and feeds it an RGB image. -/
structure Preview where
  fmt : String
  mode : ColorMode
deriving DecidableEq, Repr

def image_to_base64 (mode : ColorMode) (fmt : String) : Preview :=
  { fmt := fmt, mode := mode }

/-- The per-file response record appended to resp. -/
structure JobResult where
  filename : String
  original_width : Nat
  original_height : Nat
  new_width : Nat
  new_height : Nat
  resized : Bool
  artifact : FinalArtifact
  preview : Option Preview
deriving DecidableEq, Repr

/-- The artifact produced for one file, following the optimize branch
tree of the upload handler.  staged_mode is the color mode after the
geometry stage (resize converts JPEG-destined images to RGB). -/
def final_artifact (f : BatchFile) (opts : JobOptions) (env : Env)
    (src : SourceImage) (staged_mode : ColorMode) : FinalArtifact :=
  if opts.optimize then
    match family_of f.ext with
    | Family.PNG =>
      match png_strategy opts.convert_to env.have_pngquant env.pngquant_ok with
      | PngBranch.webp =>
        { name := f.stem ++ ".webp", fmt := "WEBP", mode := staged_mode
        , quality_used := some (py_or_nat opts.quality 80) }
      | PngBranch.pngquant_oxipng =>
        { name := f.stem ++ f.ext, fmt := "PNG", mode := staged_mode, quality_used := none }
      | PngBranch.lossless_fallback =>
        { name := f.stem ++ f.ext, fmt := "PNG", mode := staged_mode, quality_used := none }
      | PngBranch.pillow_quantize =>
        { name := f.stem ++ f.ext, fmt := "PNG", mode := ColorMode.P, quality_used := none }
    | Family.JPEG =>
      if opts.convert_to = "webp" then
        { name := f.stem ++ ".webp", fmt := "WEBP", mode := staged_mode
        , quality_used := some (py_or_nat opts.quality 80) }
      else
        let enc := jpeg_strategy env.have_cjpeg env.cjpeg_ok opts.quality opts.keep_meta src.has_exif
        let jpeg_art : FinalArtifact :=
          { name := f.stem ++ f.ext, fmt := "JPEG", mode := enc.out_mode
          , quality_used := some enc.quality }
        if opts.autowebp then
          if webp_wins env.jpeg_out_size env.webp_out_size then
            { name := f.stem ++ ".webp", fmt := "WEBP", mode := staged_mode
            , quality_used := some (py_or_nat opts.quality 80) }
          else jpeg_art
        else jpeg_art
    | Family.OTHER =>
      if opts.convert_to = "webp" then
        { name := f.stem ++ ".webp", fmt := "WEBP", mode := staged_mode
        , quality_used := some (py_or_nat opts.quality 80) }
      else
        { name := f.stem ++ f.ext, fmt := "OTHER", mode := staged_mode, quality_used := none }
  else
    match family_of f.ext with
    | Family.JPEG =>
      { name := f.stem ++ f.ext, fmt := "JPEG", mode := ColorMode.RGB, quality_used := some 95 }
    | Family.PNG =>
      { name := f.stem ++ f.ext, fmt := "PNG", mode := staged_mode, quality_used := none }
    | Family.OTHER =>
      { name := f.stem ++ f.ext, fmt := "OTHER", mode := staged_mode, quality_used := none }

/-- Process one validated file: geometry stage (target dims via the
Python or-defaulting, resize triggered by either truthy dimension),
strategy dispatch, then result assembly with the preview produced only
when optimize is false. -/
def process_one (f : BatchFile) (opts : JobOptions) (env : Env) (src : SourceImage) : JobResult :=
  let target_w := py_or opts.width src.width
  let target_h := py_or opts.height src.height
  let resized := truthy opts.width || truthy opts.height
  let staged_mode :=
    if resized && (f.ext = ".jpg" || f.ext = ".jpeg") then ColorMode.RGB else src.mode
  let art := final_artifact f opts env src staged_mode
  let preview : Option Preview :=
    if opts.optimize then none else some (image_to_base64 ColorMode.RGB "JPEG")
  { filename := art.name
  , original_width := src.width
  , original_height := src.height
  , new_width := target_w
  , new_height := target_h
  , resized := resized
  , artifact := art
  , preview := preview }

/-- The batch loop of the upload handler: files are processed in order;
the first invalid extension returns the validation error immediately,
discarding the accumulated responses, while artifacts already written to
the output directory stay on disk (no rollback). -/
def upload_batch (opts : JobOptions) (env : Env) (srcs : BatchFile → SourceImage) :
    List BatchFile → List JobResult → List String →
    Except String (List JobResult) × List String
  | [], acc, store => (Except.ok acc, store)
  | f :: rest, acc, store =>
    if valid_ext f.ext then
      let r := process_one f opts env (srcs f)
      upload_batch opts env srcs rest (acc ++ [r]) (store ++ [r.artifact.name])
    else
      (Except.error ("Invalid file format for " ++ f.stem ++ f.ext), store)

/-- The upload handler entry point over a multi-file batch. -/
def upload (opts : JobOptions) (env : Env) (srcs : BatchFile → SourceImage)
    (files : List BatchFile) : Except String (List JobResult) × List String :=
  upload_batch opts env srcs files [] []

/-- The opaque codec operations used by the optimize=false re-save path.
save_jpeg and save_png already carry the fixed parameters the code passes
(JPEG: quality 95, optimize, progressive; PNG: optimize, compress_level 9). -/
structure Codec where
  decode : List Nat → SourceImage
  exif_transpose : SourceImage → SourceImage
  convert_rgb : SourceImage → SourceImage
  save_jpeg : SourceImage → Nat → List Nat
  save_png : SourceImage → List Nat
  save_raw : SourceImage → List Nat

/-- The optimize=false branch with no resize: open the source bytes,
bake orientation, and re-save with fixed parameters chosen by family. -/
def resave_no_opt (c : Codec) (ext : String) (src_bytes : List Nat) : List Nat :=
  let im := c.exif_transpose (c.decode src_bytes)
  match family_of ext with
  | Family.JPEG => c.save_jpeg (c.convert_rgb im) 95
  | Family.PNG => c.save_png im
  | Family.OTHER => c.save_raw im

theorem webp_wins_iff (s c : Nat) : webp_wins s c = true ↔ 10 * c < 9 * s := by
  unfold webp_wins
  rw [decide_eq_true_iff]
  constructor
  · intro h
    have h10 : (10 : ℚ) * (c : ℚ) < 9 * (s : ℚ) := by
      have := mul_lt_mul_of_pos_left h (by norm_num : (0:ℚ) < 10)
      calc (10 : ℚ) * c < 10 * ((s : ℚ) * (90 / 100)) := this
        _ = 9 * s := by ring
    exact_mod_cast h10
  · intro h
    have h10 : ((10 * c : Nat) : ℚ) < ((9 * s : Nat) : ℚ) := by exact_mod_cast h
    push_cast at h10
    nlinarith

theorem string_append_ne (stem ext : String) (h : ext ≠ ".webp") :
    stem ++ ext ≠ stem ++ ".webp" := by
  intro hcontra
  apply h
  have hall : (stem ++ ext).data = (stem ++ ".webp").data := by rw [hcontra]
  simp only [String.data_append] at hall
  exact String.ext (List.append_cancel_left hall)

/-- C1: In Candidate Arbitration, the WebP challenger of size C is chosen
iff C is strictly below 0.9 times the current output size S (equality
does not select it), the loser is deleted, and exactly one of the two
artifacts survives. -/
theorem arbitration_threshold (stem ext : String) (S C : Nat) (h : ext ≠ ".webp") :
    ((try_webp_and_pick_smaller stem ext S C).chosen = stem ++ ".webp" ↔ 10 * C < 9 * S) ∧
    (10 * C = 9 * S → (try_webp_and_pick_smaller stem ext S C).chosen = stem ++ ext) ∧
    survivors stem ext (try_webp_and_pick_smaller stem ext S C) =
      [(try_webp_and_pick_smaller stem ext S C).chosen] := by
  have hne := string_append_ne stem ext h
  by_cases hw : webp_wins S C = true
  · have hr : try_webp_and_pick_smaller stem ext S C =
        { chosen := stem ++ ".webp", deleted := [stem ++ ext] } := by
      unfold try_webp_and_pick_smaller
      rw [hw]
      simp
    rw [hr]
    refine ⟨⟨fun _ => (webp_wins_iff S C).mp hw, fun _ => rfl⟩, ?_, ?_⟩
    · intro heq
      exfalso
      have := (webp_wins_iff S C).mp hw
      omega
    · unfold survivors
      simp only [List.filter, List.contains, List.elem]
      have h1 : ((stem ++ ext) == (stem ++ ext)) = true := by simp
      have h2 : ((stem ++ ".webp") == (stem ++ ext)) = false := by
        simp only [beq_eq_false_iff_ne, ne_eq]
        exact fun hc => hne hc.symm
      simp [h1, h2]
  · rw [Bool.not_eq_true] at hw
    have hr : try_webp_and_pick_smaller stem ext S C =
        { chosen := stem ++ ext, deleted := [stem ++ ".webp"] } := by
      unfold try_webp_and_pick_smaller
      rw [hw]
      simp
    rw [hr]
    refine ⟨⟨fun hc => absurd hc hne, ?_⟩, fun _ => rfl, ?_⟩
    · intro hlt
      exfalso
      have hnw : ¬ (webp_wins S C = true) := by simp [hw]
      have := (webp_wins_iff S C).not.mp hnw
      omega
    · unfold survivors
      simp only [List.filter, List.contains, List.elem]
      have h1 : ((stem ++ ".webp") == (stem ++ ".webp")) = true := by simp
      have h2 : ((stem ++ ext) == (stem ++ ".webp")) = false := by
        simp only [beq_eq_false_iff_ne, ne_eq]
        exact hne
      simp [h1, h2]

theorem arbitration_threshold_witness :
    (".jpg" : String) ≠ ".webp" ∧
    ((try_webp_and_pick_smaller "a" ".jpg" 10 9).chosen = "a" ++ ".webp" ↔ 10 * 9 < 9 * 10) := by
  refine ⟨by decide, ?_⟩
  exact (arbitration_threshold "a" ".jpg" 10 9 (by decide)).1

/-! Sample fixtures used by witnesses and counterexamples. -/

def sample_file : BatchFile := { stem := "a", ext := ".jpg" }

def sample_env : Env :=
  { have_pngquant := false, pngquant_ok := false, have_cjpeg := false
  , cjpeg_ok := false, jpeg_out_size := 0, webp_out_size := 0 }

def sample_src : SourceImage :=
  { width := 640, height := 480, mode := ColorMode.RGBA, has_exif := true }

def sample_srcs : BatchFile → SourceImage := fun _ => sample_src

def sample_opts : JobOptions :=
  { width := none, height := none, optimize := false, quality := 82
  , convert_to := "", keep_meta := false, autowebp := false }

/-! C2: fail-fast batch validation and its effect on earlier artifacts. -/

theorem upload_batch_invalid (opts : JobOptions) (env : Env)
    (srcs : BatchFile → SourceImage) (good : List BatchFile) (bad : BatchFile)
    (rest : List BatchFile) (acc : List JobResult) (store : List String)
    (hg : ∀ f ∈ good, valid_ext f.ext = true) (hb : valid_ext bad.ext = false) :
    upload_batch opts env srcs (good ++ bad :: rest) acc store =
      (Except.error ("Invalid file format for " ++ bad.stem ++ bad.ext),
       store ++ good.map (fun f => (process_one f opts env (srcs f)).artifact.name)) := by
  induction good generalizing acc store with
  | nil => simp [upload_batch, hb]
  | cons f g ih =>
    have hf : valid_ext f.ext = true := hg f (by simp)
    simp only [List.cons_append, upload_batch, hf, if_true]
    have ih2 := ih (acc ++ [process_one f opts env (srcs f)])
      (store ++ [(process_one f opts env (srcs f)).artifact.name])
      (fun x hx => hg x (List.mem_cons_of_mem f hx))
    exact ih2.trans (by simp)

/-- C2 counterexample: a 2-file batch whose second file has extension
.bmp fails with the validation error, yet the output artifact of the
first (valid) file is still present in the output store. -/
theorem batch_artifact_survives_counterexample :
    ((upload sample_opts sample_env sample_srcs
        [{ stem := "a", ext := ".jpg" }, { stem := "b", ext := ".bmp" }]).1 =
      Except.error "Invalid file format for b.bmp") ∧
    "a.jpg" ∈ (upload sample_opts sample_env sample_srcs
        [{ stem := "a", ext := ".jpg" }, { stem := "b", ext := ".bmp" }]).2 := by
  constructor
  · rfl
  · decide

/-- C2 (amended): a batch containing a file with a disallowed extension
fails as a whole with a validation error and the responses of all
earlier successfully processed files are discarded, but the output
artifacts of earlier valid files remain on disk (they are not rolled
back). -/
theorem batch_fail_fast_keeps_artifacts (opts : JobOptions) (env : Env)
    (srcs : BatchFile → SourceImage) (good : List BatchFile) (bad : BatchFile)
    (rest : List BatchFile)
    (hg : ∀ f ∈ good, valid_ext f.ext = true) (hb : valid_ext bad.ext = false) :
    (upload opts env srcs (good ++ bad :: rest)).1 =
      Except.error ("Invalid file format for " ++ bad.stem ++ bad.ext) ∧
    (upload opts env srcs (good ++ bad :: rest)).2 =
      good.map (fun f => (process_one f opts env (srcs f)).artifact.name) := by
  unfold upload
  rw [upload_batch_invalid opts env srcs good bad rest [] [] hg hb]
  simp

theorem batch_fail_fast_keeps_artifacts_witness :
    (upload sample_opts sample_env sample_srcs
        ([{ stem := "a", ext := ".jpg" }] ++ { stem := "b", ext := ".bmp" } :: [])).2 =
      ([({ stem := "a", ext := ".jpg" } : BatchFile)]).map
        (fun f => (process_one f sample_opts sample_env (sample_srcs f)).artifact.name) :=
  (batch_fail_fast_keeps_artifacts sample_opts sample_env sample_srcs
    [{ stem := "a", ext := ".jpg" }] { stem := "b", ext := ".bmp" } []
    (by decide) (by decide)).2

/-! C3: the PNG fallback chain. -/

/-- C3 counterexample: when pngquant is available but its invocation
fails, the code runs the lossless fallback (compress_png_lossless), not
the in-process palette quantization the claim names. -/
theorem png_fallback_counterexample :
    png_strategy "" true false = PngBranch.lossless_fallback ∧
    png_strategy "" true false ≠ PngBranch.pillow_quantize := by
  decide

/-- C3 (amended): for a PNG-family optimize job with no convert_to=webp
override, the in-process palette quantization with error-diffusion
dithering runs exactly when pngquant is unavailable; when pngquant is
available but its invocation fails, the strategy instead falls back to
the lossless recompression branch. -/
theorem png_fallback_branches (ct : String) (hct : ct ≠ "webp") (ok : Bool) :
    png_strategy ct false ok = PngBranch.pillow_quantize ∧
    png_strategy ct true false = PngBranch.lossless_fallback := by
  unfold png_strategy
  simp [hct]

theorem png_fallback_branches_witness :
    ("" : String) ≠ "webp" ∧ png_strategy "" false true = PngBranch.pillow_quantize := by
  refine ⟨by decide, ?_⟩
  exact (png_fallback_branches "" (by decide) true).1

/-! C4: the geometry stage. -/

theorem py_or_of_not_truthy (v : Option Nat) (d : Nat) (h : truthy v = false) :
    py_or v d = d := by
  cases v with
  | none => rfl
  | some n =>
    simp only [truthy, decide_eq_false_iff_not, ne_eq, not_not] at h
    simp [py_or, h]

theorem truthy_some_ne (w : Nat) (hw : w ≠ 0) : truthy (some w) = true := by
  simp [truthy, hw]

theorem py_or_some_ne (w d : Nat) (hw : w ≠ 0) : py_or (some w) d = w := by
  simp [py_or, hw]

/-- C4: when exactly one of width/height is requested (nonzero), the
geometry stage resizes to that value paired with the original other
dimension (no aspect correction) and reports exactly those dimensions;
when neither is requested, dimensions pass through unchanged and no
resize runs. -/
theorem geometry_one_dimension (f : BatchFile) (opts : JobOptions) (env : Env)
    (src : SourceImage) :
    (∀ w, opts.width = some w → w ≠ 0 → truthy opts.height = false →
      (process_one f opts env src).new_width = w ∧
      (process_one f opts env src).new_height = src.height ∧
      (process_one f opts env src).resized = true) ∧
    (∀ h, opts.height = some h → h ≠ 0 → truthy opts.width = false →
      (process_one f opts env src).new_height = h ∧
      (process_one f opts env src).new_width = src.width ∧
      (process_one f opts env src).resized = true) ∧
    (truthy opts.width = false → truthy opts.height = false →
      (process_one f opts env src).new_width = src.width ∧
      (process_one f opts env src).new_height = src.height ∧
      (process_one f opts env src).resized = false) := by
  refine ⟨?_, ?_, ?_⟩
  · intro w hw hw0 hh
    simp only [process_one, hw]
    exact ⟨py_or_some_ne w src.width hw0, py_or_of_not_truthy _ _ hh,
      by simp [truthy_some_ne w hw0]⟩
  · intro h hh hh0 hw
    simp only [process_one, hh]
    exact ⟨py_or_some_ne h src.height hh0, py_or_of_not_truthy _ _ hw,
      by simp [truthy_some_ne h hh0]⟩
  · intro hw hh
    simp only [process_one]
    exact ⟨py_or_of_not_truthy _ _ hw, py_or_of_not_truthy _ _ hh, by simp [hw, hh]⟩

theorem geometry_one_dimension_witness :
    (process_one sample_file
        { width := some 200, height := none, optimize := false, quality := 82
        , convert_to := "", keep_meta := false, autowebp := false }
        sample_env sample_src).new_width = 200 ∧
    (process_one sample_file
        { width := some 200, height := none, optimize := false, quality := 82
        , convert_to := "", keep_meta := false, autowebp := false }
        sample_env sample_src).new_height = sample_src.height ∧
    (process_one sample_file
        { width := some 200, height := none, optimize := false, quality := 82
        , convert_to := "", keep_meta := false, autowebp := false }
        sample_env sample_src).resized = true :=
  (geometry_one_dimension sample_file
    { width := some 200, height := none, optimize := false, quality := 82
    , convert_to := "", keep_meta := false, autowebp := false }
    sample_env sample_src).1 200 rfl (by decide) (by decide)

/-! C5: the JPEG optimize chain. -/

/-- C5: with optimize=true and no convert_to override, an available
cjpeg is invoked through a quality-95 staged intermediate with
progressive and optimize flags at the requested quality; on failure the
strategy falls through to the in-process Pillow encode, which is
progressive, optimized, 4:2:0-subsampled, and keeps EXIF iff the
metadata-retention flag is set. -/
theorem jpeg_optimize_chain (q : Nat) (hq : q ≠ 0) (keep_meta : Bool) :
    jpeg_strategy true true q keep_meta true = encode_jpeg_mozjpeg q ∧
    (encode_jpeg_mozjpeg q).staged_quality = some 95 ∧
    (encode_jpeg_mozjpeg q).progressive = true ∧
    (encode_jpeg_mozjpeg q).optimize = true ∧
    (encode_jpeg_mozjpeg q).quality = q ∧
    jpeg_strategy true false q keep_meta true = encode_jpeg_pillow q keep_meta true ∧
    (encode_jpeg_pillow q keep_meta true).progressive = true ∧
    (encode_jpeg_pillow q keep_meta true).optimize = true ∧
    (encode_jpeg_pillow q keep_meta true).subsampling = some "4:2:0" ∧
    ((encode_jpeg_pillow q keep_meta true).exif_kept = true ↔ keep_meta = true) := by
  unfold jpeg_strategy
  simp [py_or_nat, hq, encode_jpeg_pillow, encode_jpeg_mozjpeg]

theorem jpeg_optimize_chain_witness :
    (82 : Nat) ≠ 0 ∧ jpeg_strategy true true 82 true true = encode_jpeg_mozjpeg 82 :=
  ⟨by decide, (jpeg_optimize_chain 82 (by decide) true).1⟩

/-! C6: the in-process PNG quantization fallback, in both copies. -/

/-- C6 counterexample: at quality 82 the two near-identical copies
disagree: src/backend/app.py yields 164 colors (clamp(2q,32,256)) with
compress_level 9, while src/image_pro/backend/app.py yields 209 colors
(clamp(floor(2.56 q),16,256)) and passes no compress_level. -/
theorem quantize_copies_diverge :
    (pillow_quantize_fallback 82).colors = 164 ∧
    (pillow_quantize_fallback_copy 82).colors = 209 ∧
    pillow_quantize_fallback 82 ≠ pillow_quantize_fallback_copy 82 ∧
    (pillow_quantize_fallback_copy 82).save_compress_level = none := by
  decide

/-- C6 (amended): in src/backend/app.py the fallback uses
clamp(2*q, 32, 256) colors, Floyd-Steinberg dithering and
compress_level 9; the second copy src/image_pro/backend/app.py instead
uses clamp(floor(2.56*q), 16, 256) colors and saves without an explicit
compression level, so the property does not hold identically in both
copies. -/
theorem quantize_fallback_params (q : Nat) (hq : q ≠ 0) :
    (pillow_quantize_fallback q).colors = max 32 (min 256 (2 * q)) ∧
    (pillow_quantize_fallback q).dither = "FLOYDSTEINBERG" ∧
    (pillow_quantize_fallback q).save_compress_level = some 9 ∧
    (pillow_quantize_fallback q).save_optimize = true ∧
    (pillow_quantize_fallback_copy q).colors = max 16 (min 256 (q * 256 / 100)) ∧
    (pillow_quantize_fallback_copy q).save_compress_level = none := by
  unfold pillow_quantize_fallback pillow_quantize_fallback_copy
  simp [py_or_nat, hq]

theorem quantize_fallback_params_witness :
    (82 : Nat) ≠ 0 ∧ (pillow_quantize_fallback 82).colors = max 32 (min 256 (2 * 82)) :=
  ⟨by decide, (quantize_fallback_params 82 (by decide)).1⟩

/-! C7: JPEG outputs always have exactly 3 channels. -/

theorem jpeg_strategy_out_mode (a b : Bool) (q : Nat) (k e : Bool) :
    (jpeg_strategy a b q k e).out_mode = ColorMode.RGB := by
  cases a <;> cases b <;> rfl

theorem final_artifact_jpeg_rgb (f : BatchFile) (opts : JobOptions) (env : Env)
    (src : SourceImage) (m : ColorMode) (hct : opts.convert_to ≠ "webp")
    (hfmt : (final_artifact f opts env src m).fmt = "JPEG") :
    (final_artifact f opts env src m).mode = ColorMode.RGB := by
  unfold final_artifact at hfmt ⊢
  by_cases hopt : opts.optimize = true
  · simp only [hopt, if_true] at hfmt ⊢
    cases hfam : family_of f.ext with
    | PNG =>
      simp only [hfam] at hfmt ⊢
      cases hbr : png_strategy opts.convert_to env.have_pngquant env.pngquant_ok <;>
        simp only [hbr] at hfmt ⊢ <;> exact absurd hfmt (by decide)
    | JPEG =>
      simp only [hfam, if_neg hct] at hfmt ⊢
      by_cases haw : opts.autowebp = true
      · simp only [haw, if_true] at hfmt ⊢
        by_cases hwin : webp_wins env.jpeg_out_size env.webp_out_size = true
        · simp only [hwin, if_true] at hfmt
          exact absurd hfmt (by decide)
        · rw [Bool.not_eq_true] at hwin
          simp only [hwin, Bool.false_eq_true, if_false] at hfmt ⊢
          exact jpeg_strategy_out_mode _ _ _ _ _
      · rw [Bool.not_eq_true] at haw
        simp only [haw, Bool.false_eq_true, if_false] at hfmt ⊢
        exact jpeg_strategy_out_mode _ _ _ _ _
    | OTHER =>
      simp only [hfam, if_neg hct] at hfmt ⊢
      exact absurd hfmt (by decide)
  · rw [Bool.not_eq_true] at hopt
    simp only [hopt, Bool.false_eq_true, if_false] at hfmt ⊢
    cases hfam : family_of f.ext with
    | JPEG => simp only [hfam]
    | PNG =>
      simp only [hfam] at hfmt
      exact absurd hfmt (by decide)
    | OTHER =>
      simp only [hfam] at hfmt
      exact absurd hfmt (by decide)

/-- C7: every job whose final artifact is a JPEG (no convert_to=webp)
was encoded from a 3-channel image: alpha is flattened to RGB on both
the optimize=true and optimize=false paths. -/
theorem jpeg_output_three_channels (f : BatchFile) (opts : JobOptions) (env : Env)
    (src : SourceImage) (hct : opts.convert_to ≠ "webp")
    (hfmt : (process_one f opts env src).artifact.fmt = "JPEG") :
    ((process_one f opts env src).artifact.mode).channels = 3 := by
  have hart : (process_one f opts env src).artifact =
      final_artifact f opts env src
        (if (truthy opts.width || truthy opts.height) && (f.ext = ".jpg" || f.ext = ".jpeg")
         then ColorMode.RGB else src.mode) := rfl
  rw [hart] at hfmt ⊢
  rw [final_artifact_jpeg_rgb f opts env src _ hct hfmt]
  rfl

theorem jpeg_output_three_channels_witness :
    (sample_opts.convert_to ≠ "webp") ∧
    ((process_one sample_file sample_opts sample_env sample_src).artifact.fmt = "JPEG") ∧
    ((process_one sample_file sample_opts sample_env sample_src).artifact.mode).channels = 3 :=
  ⟨by decide, by decide,
    jpeg_output_three_channels sample_file sample_opts sample_env sample_src
      (by decide) (by decide)⟩

/-! C8: the inline preview channel. -/

/-- C8: the JobResult carries an inline preview iff optimize is false,
and the preview is always a JPEG encoding of an RGB-converted image,
regardless of the real output format. -/
theorem preview_iff_no_optimize (f : BatchFile) (opts : JobOptions) (env : Env)
    (src : SourceImage) :
    ((process_one f opts env src).preview = none ↔ opts.optimize = true) ∧
    (∀ p, (process_one f opts env src).preview = some p →
      p.fmt = "JPEG" ∧ p.mode = ColorMode.RGB) := by
  have hp : (process_one f opts env src).preview =
      (if opts.optimize then none else some (image_to_base64 ColorMode.RGB "JPEG")) := rfl
  rw [hp]
  cases ho : opts.optimize <;> simp [image_to_base64]

theorem preview_iff_no_optimize_witness :
    ((process_one sample_file sample_opts sample_env sample_src).preview =
      some { fmt := "JPEG", mode := ColorMode.RGB }) ∧
    ({ fmt := "JPEG", mode := ColorMode.RGB } : Preview).fmt = "JPEG" ∧
    ({ fmt := "JPEG", mode := ColorMode.RGB } : Preview).mode = ColorMode.RGB := by
  refine ⟨by decide, ?_⟩
  exact (preview_iff_no_optimize sample_file sample_opts sample_env sample_src).2 _ (by decide)

/-! C9: determinism of the optimize=false re-save. -/

def sample_codec : Codec :=
  { decode := fun _ => sample_src
  , exif_transpose := id
  , convert_rgb := fun i => { i with mode := ColorMode.RGB }
  , save_jpeg := fun i q => [i.width, i.height, q]
  , save_png := fun i => [i.width, i.height]
  , save_raw := fun i => [i.width] }

/-- C9: the optimize=false re-save consults only the source bytes and
fixed encode parameters, so with a fixed encoder version two runs on the
same source produce byte-identical output. -/
theorem resave_deterministic (c1 c2 : Codec) (hc : c1 = c2) (ext : String)
    (s : List Nat) :
    resave_no_opt c1 ext s = resave_no_opt c2 ext s := by
  rw [hc]

theorem resave_deterministic_witness :
    resave_no_opt sample_codec ".jpg" [0] = resave_no_opt sample_codec ".jpg" [0] :=
  resave_deterministic sample_codec sample_codec rfl ".jpg" [0]

/-! C10: zero-valued parameters. -/

/-- C10 counterexample: with optimize=true and quality=0 the WebP encode
site passes quality 80 (quality or 80), not the claimed default 82. -/
theorem quality_zero_counterexample :
    ((process_one { stem := "p", ext := ".png" }
        { width := none, height := none, optimize := true, quality := 0
        , convert_to := "webp", keep_meta := false, autowebp := false }
        sample_env sample_src).artifact.quality_used = some 80) ∧
    (some 80 : Option Nat) ≠ some 82 := by
  decide

/-- C10 (amended): width=0 and height=0 behave exactly as if the
dimension were not requested (the whole job result is unchanged), a
missing quality field parses to the default 82, and a quality of 0 is
replaced at each use site by that site's own default: 82 at JPEG/PNG
use sites but 80 at WebP use sites, so quality=0 is not equivalent to
omitting the parameter at WebP sites. -/
theorem zero_params_behavior (f : BatchFile) (opts : JobOptions) (env : Env)
    (src : SourceImage) (d : Nat) :
    process_one f { opts with width := some 0 } env src =
      process_one f { opts with width := none } env src ∧
    process_one f { opts with height := some 0 } env src =
      process_one f { opts with height := none } env src ∧
    parse_quality none = 82 ∧
    py_or_nat 0 d = d ∧
    py_or_nat 0 82 = 82 ∧
    py_or_nat 0 80 = 80 :=
  ⟨rfl, rfl, rfl, rfl, rfl, rfl⟩

end ImagePro
